import Mathlib

/-!
Verification of the core command-execution protocol of `shell-logger`
(`src/shell_logger/shell.py`, `src/shell_logger/stats_collector.py`,
`src/shell_logger/shell_logger.py`), via a shallow embedding: pure Lean
functions mirror the Python functions, byte streams are lists of chunks
(each chunk a `List Nat` of byte values), and effectful steps (writes to
the shell's stdin, reads from pipes, directory changes) are made explicit
as data threaded through the definitions.
-/

set_option autoImplicit false

/-- The end-of-transmission sentinel byte (`END_OF_READ = 4` in
`shell.py`): ASCII EOT, written by the shell after each command's output
to mark the end of the frame on a given stream. -/
def END_OF_READ : Nat := 4

/-- The exact sequence of strings `Shell.run` writes to the shell
subprocess's stdin before reading any output
(`shell.py`, lines 178-192): the brace-wrapped command (with the
` </dev/null` redirection spliced in before the trailing newline when
`devnull_stdin` is requested), then the `RET_CODE=$?` capture, then the
two sentinel prints (one to stdout, one redirected to stderr). -/
def runStdinWrites (command : String) (devnull_stdin : Bool) : List String :=
  (if devnull_stdin then
    ["\x7b\n" ++ command ++ "\n\x7d </dev/null\n"]
  else
    ["\x7b\n" ++ command ++ "\n\x7d\n"])
  ++ ["RET_CODE=$?\n", "printf \x27\\4\x27\n", "printf \x27\\4\x27 1>&2\n"]

/-- Modelled from the spec's words (refinement side of the framing
claim): the command framing exactly as the specification prints it,
`\x7b \n<command>\n \x7d\n` (note the space after the opening brace and
before the closing one) optionally followed by the ` </dev/null`
redirection, then `RET_CODE=$?\n`, then the two sentinel prints. -/
def specStdinFraming (command : String) (devnull_stdin : Bool) : String :=
  "\x7b \n" ++ command ++ "\n \x7d\n"
    ++ (if devnull_stdin then " </dev/null" else "")
    ++ "RET_CODE=$?\n" ++ "printf \x27\\4\x27\n" ++ "printf \x27\\4\x27 1>&2\n"

/-- Claim C1 (counterexample): at the concrete command `echo hi` the
bytes `Shell.run` actually writes to the shell's stdin differ from the
framing string the claim specifies, in both the non-`devnull_stdin` and
the `devnull_stdin` cases: the code puts no spaces inside the braces,
and it splices ` </dev/null` in before the newline that terminates the
brace group rather than after it. -/
theorem run_stdin_writes_ne_claimed :
    String.join (runStdinWrites "echo hi" false) ≠ specStdinFraming "echo hi" false ∧
    String.join (runStdinWrites "echo hi" true) ≠ specStdinFraming "echo hi" true := by
  constructor <;> decide

/-- Claim C1 (amended): for every command string `c`, `Shell.run` writes
to the shell subprocess's stdin exactly, in order: `\x7b\n<c>\n\x7d\n`
(no spaces inside the braces) -- or `\x7b\n<c>\n\x7d </dev/null\n` when
`devnull_stdin` is requested, the redirection standing between the
closing brace and its terminating newline -- then `RET_CODE=$?\n`, then
`printf '\4'\n`, then `printf '\4' 1>&2\n`, and nothing else before the
output is read. -/
theorem run_stdin_writes_exact (c : String) :
    runStdinWrites c false
      = ["\x7b\n" ++ c ++ "\n\x7d\n", "RET_CODE=$?\n",
         "printf \x27\\4\x27\n", "printf \x27\\4\x27 1>&2\n"] ∧
    runStdinWrites c true
      = ["\x7b\n" ++ c ++ "\n\x7d </dev/null\n", "RET_CODE=$?\n",
         "printf \x27\\4\x27\n", "printf \x27\\4\x27 1>&2\n"] :=
  ⟨rfl, rfl⟩

/-- One pass of the tee worker's read loop (`Shell.tee.write`,
`shell.py` lines 275-295), applied to the sequence of chunks the OS
delivers for one stream (an exhausted list models a closed pipe, whose
reads return no bytes).  Returns the list of chunks passed to the
sinks' `write` calls -- the loop forwards every chunk whose last byte
is not the sentinel, and on exit writes `chunk[:-1]` -- together with a
flag recording whether `_thread.interrupt_main()` was invoked (the
stream produced an empty read, i.e. it closed without a sentinel). -/
def teeWriteChunks : List (List Nat) → List (List Nat) × Bool
  | [] => ([[]], true)
  | c :: cs =>
    if c = [] then ([[]], true)
    else if c.getLast? = some END_OF_READ then ([c.dropLast], false)
    else
      let r := teeWriteChunks cs
      (c :: r.1, r.2)

/-- The hypothesis of the failure-semantics claim, stated from the
stream's point of view: the pipe closes (a read returns no bytes, or
the chunk sequence is exhausted) before any sentinel byte `0x04` has
appeared anywhere in the delivered bytes. -/
def closesBeforeAnySentinelByte : List (List Nat) → Bool
  | [] => true
  | c :: cs =>
    if c = [] then true
    else if END_OF_READ ∈ c then false
    else closesBeforeAnySentinelByte cs

theorem mem_of_getLastEq {α : Type} {l : List α} {a : α}
    (h : l.getLast? = some a) : a ∈ l := by
  induction l with
  | nil => simp at h
  | cons x xs ih =>
    cases xs with
    | nil => simp_all
    | cons y ys =>
      rw [List.getLast?_cons_cons] at h
      exact List.mem_cons_of_mem x (ih h)

theorem teeWriteChunks_fatal_of_closes {cs : List (List Nat)}
    (h : closesBeforeAnySentinelByte cs = true) :
    (teeWriteChunks cs).2 = true := by
  induction cs with
  | nil => rfl
  | cons c cs ih =>
    by_cases hc : c = []
    · simp [teeWriteChunks, hc]
    · have hmem : END_OF_READ ∉ c := by
        by_contra hmem
        simp [closesBeforeAnySentinelByte, hc, hmem] at h
      have hlast : c.getLast? ≠ some END_OF_READ := fun hl =>
        hmem (mem_of_getLastEq hl)
      have hrec : closesBeforeAnySentinelByte cs = true := by
        simpa [closesBeforeAnySentinelByte, hc, hmem] using h
      simp [teeWriteChunks, hc, hlast, ih hrec]

theorem teeWriteChunks_append (pre : List (List Nat)) (c : List Nat)
    (cs : List (List Nat))
    (h1 : ∀ x ∈ pre, x ≠ [] ∧ x.getLast? ≠ some END_OF_READ)
    (h2 : c.getLast? = some END_OF_READ) :
    teeWriteChunks (pre ++ c :: cs) = (pre ++ [c.dropLast], false) := by
  induction pre with
  | nil =>
    have hc : c ≠ [] := by
      intro hc
      rw [hc] at h2
      simp at h2
    simp [teeWriteChunks, hc, h2]
  | cons x xs ih =>
    have hx := h1 x (List.mem_cons_self x xs)
    have ihx := ih (fun y hy => h1 y (List.mem_cons_of_mem x hy))
    simp [teeWriteChunks, hx.1, hx.2, ihx]

/-- Claim C3 (counterexample): a sentinel byte that is not the final
byte of its read chunk is not treated as end-of-frame.  With the chunk
sequence `[[97, 4, 98], [4]]` the worker delivers `[97, 4, 98]` to the
sinks: the sentinel `4` itself and the byte `98` standing after it are
both delivered, contradicting the claim that no byte at or after the
first `0x04` is ever delivered. -/
theorem tee_delivers_mid_chunk_sentinel :
    (teeWriteChunks [[97, 4, 98], [4]]).1.join = [97, 4, 98] ∧
    END_OF_READ ∈ (teeWriteChunks [[97, 4, 98], [4]]).1.join ∧
    98 ∈ (teeWriteChunks [[97, 4, 98], [4]]).1.join := by
  refine ⟨by decide, by decide, by decide⟩

/-- Claim C3 (amended): the sentinel terminates a frame only when it is
the final byte of a read chunk.  The worker stops at the first chunk
whose last byte is `0x04`, delivering that chunk without its final
byte; every earlier chunk is delivered verbatim -- a `0x04` occurring
anywhere other than chunk-final position is passed through to the
sinks like an ordinary byte and does not end the frame. -/
theorem tee_sentinel_chunk_final_only (pre : List (List Nat))
    (c : List Nat) (cs : List (List Nat))
    (h1 : ∀ x ∈ pre, x ≠ [] ∧ x.getLast? ≠ some END_OF_READ)
    (h2 : c.getLast? = some END_OF_READ) :
    (teeWriteChunks (pre ++ c :: cs)).1.join = pre.join ++ c.dropLast ∧
    (teeWriteChunks (pre ++ c :: cs)).2 = false := by
  rw [teeWriteChunks_append pre c cs h1 h2]
  simp

/-- Witness for the amended C3 theorem at a concrete stream: the chunk
`[97, 4, 98]` (with an interior sentinel) precedes the terminating
chunk `[99, 4]`, and the delivered bytes are `[97, 4, 98, 99]`. -/
theorem tee_sentinel_chunk_final_only_witness :
    (teeWriteChunks [[97, 4, 98], [99, 4]]).1.join = [97, 4, 98, 99] ∧
    (teeWriteChunks [[97, 4, 98], [99, 4]]).2 = false :=
  tee_sentinel_chunk_final_only [[97, 4, 98]] [99, 4] [] (by decide)
    (by decide)

/-- Whether a byte is a UTF-8 continuation byte (`0x80`-`0xBF`). -/
def utf8IsCont (b : Nat) : Bool := 128 ≤ b && b ≤ 191

/-- Valid second-byte range of a three-byte UTF-8 sequence, which
depends on the lead byte (`0xE0` forbids overlong encodings, `0xED`
forbids surrogates). -/
def utf8Cont3Ok (b b2 : Nat) : Bool :=
  if b = 224 then 160 ≤ b2 && b2 ≤ 191
  else if b = 237 then 128 ≤ b2 && b2 ≤ 159
  else utf8IsCont b2

/-- Valid second-byte range of a four-byte UTF-8 sequence (`0xF0`
forbids overlong encodings, `0xF4` caps code points at `0x10FFFF`). -/
def utf8Cont4Ok (b b2 : Nat) : Bool :=
  if b = 240 then 144 ≤ b2 && b2 ≤ 191
  else if b = 244 then 128 ≤ b2 && b2 ≤ 143
  else utf8IsCont b2

/-- UTF-8 decoding of a byte list, marking errors instead of raising:
each decoded scalar contributes `some c` and each malformed position
contributes `none`.  This embeds the behaviour `bytes.decode` exposes
through its two error modes used in `shell.py`: `errors="ignore"`
drops the `none`s, the default strict mode fails when any `none` is
present.  (CPython's error handler may skip a slightly different span
of a malformed sequence than one byte; no claim depends on that.) -/
def utf8DecodeCore : List Nat → List (Option Char)
  | [] => []
  | b :: rest =>
    if b < 128 then some (Char.ofNat b) :: utf8DecodeCore rest
    else if 194 ≤ b ∧ b ≤ 223 then
      match rest with
      | [] => [none]
      | b2 :: rest2 =>
        if utf8IsCont b2 then
          some (Char.ofNat ((b - 192) * 64 + (b2 - 128)))
            :: utf8DecodeCore rest2
        else none :: utf8DecodeCore (b2 :: rest2)
    else if 224 ≤ b ∧ b ≤ 239 then
      match rest with
      | b2 :: b3 :: rest3 =>
        if utf8Cont3Ok b b2 && utf8IsCont b3 then
          some (Char.ofNat ((b - 224) * 4096 + (b2 - 128) * 64 + (b3 - 128)))
            :: utf8DecodeCore rest3
        else none :: utf8DecodeCore (b2 :: b3 :: rest3)
      | _ => [none]
    else if 240 ≤ b ∧ b ≤ 244 then
      match rest with
      | b2 :: b3 :: b4 :: rest4 =>
        if utf8Cont4Ok b b2 && utf8IsCont b3 && utf8IsCont b4 then
          some (Char.ofNat ((b - 240) * 262144 + (b2 - 128) * 4096
              + (b3 - 128) * 64 + (b4 - 128)))
            :: utf8DecodeCore rest4
        else none :: utf8DecodeCore (b2 :: b3 :: b4 :: rest4)
      | _ => [none]
    else none :: utf8DecodeCore rest
termination_by bs => bs.length
decreasing_by all_goals simp_arith [List.length_cons]

/-- `bytes.decode(errors="ignore")`: lenient decoding, total on every
byte list -- malformed sequences are dropped rather than raising. -/
def utf8DecodeIgnore (bs : List Nat) : List Char :=
  (utf8DecodeCore bs).filterMap id

/-- `bytes.decode()` in its default strict mode: `none` when any
malformed sequence is present (the Python call raises). -/
def utf8DecodeStrict (bs : List Nat) : Option (List Char) :=
  if (utf8DecodeCore bs).all Option.isSome then some (utf8DecodeIgnore bs)
  else none

/-- The keyword arguments `Shell.tee` consults (`shell.py` lines
255-260): console echo suppression for each stream, whether to
accumulate each stream in memory, and the optional file path for each
stream (absent means the opened file is `os.devnull`). -/
structure TeeKwargs where
  quiet_stdout : Bool
  quiet_stderr : Bool
  stdout_str : Bool
  stderr_str : Bool
  stdout_path : Option String
  stderr_path : Option String

/-- The three kinds of sink object a tee list can hold: the process's
own `sys.stdout`/`sys.stderr` (console passthrough), an in-memory
`StringIO` accumulator, and a file opened from a path. -/
inductive SinkKind
  | sysConsole
  | memoryIO
  | fileIO
deriving DecidableEq

/-- One sink of a tee list: its kind, the text written to it, and
whether it has been closed. -/
structure SinkCell where
  kind : SinkKind
  content : List Char
  closed : Bool
deriving DecidableEq

/-- The cleanup loop at the end of `Shell.tee` (`shell.py` lines
312-317): every sink that is not `None` and not one of
`sys.stdout`/`sys.stderr`/`sys.stdin` is closed. -/
def closeCell (cell : SinkCell) : SinkCell :=
  match cell.kind with
  | SinkKind.sysConsole => cell
  | _ => { cell with closed := true }

/-- The sinks of one stream after a `Shell.tee` call: the optional
console passthrough, the optional in-memory accumulator, the
always-present file sink, and the path that file was opened from. -/
structure TeeStreamOut where
  console : Option SinkCell
  memory : Option SinkCell
  fileCell : SinkCell
  filePath : String
deriving DecidableEq

/-- Build one stream's sink list as `Shell.tee` does (console unless
quiet, `StringIO` when the `*_str` flag is set, a file always --
defaulting to `os.devnull`), write the stream's decoded text to every
present sink, then run the cleanup loop over the list. -/
def mkStream (quiet strFlag : Bool) (path : Option String)
    (text : List Char) : TeeStreamOut :=
  let console0 := if quiet then none
                  else some (SinkCell.mk SinkKind.sysConsole text false)
  let memory0 := if strFlag then some (SinkCell.mk SinkKind.memoryIO text false)
                 else none
  let file0 := SinkCell.mk SinkKind.fileIO text false
  { console := console0.map closeCell,
    memory := memory0.map closeCell,
    fileCell := closeCell file0,
    filePath := path.getD "/dev/null" }

/-- The value `Shell.tee` produces: both streams' sinks, the
accumulated strings returned to `Shell.run` (taken from the `StringIO`
accumulators before the cleanup loop runs), and whether either worker
signalled a fatal stream closure via `_thread.interrupt_main()`. -/
structure TeeResult where
  outStream : TeeStreamOut
  errStream : TeeStreamOut
  stdout_str : Option (List Char)
  stderr_str : Option (List Char)
  fatal : Bool
deriving DecidableEq

/-- `Shell.tee` (`shell.py` lines 234-318): run the two workers (the
sequential composition here reflects that `tee` joins both threads
before returning), fan each decoded chunk out to every present sink of
the corresponding stream, and close the opened sinks.  Each worker
decodes chunk-by-chunk with `errors="ignore"` (`utf8DecodeIgnore`), so
the text a sink receives is the concatenation of the decoded written
chunks. -/
def tee (stdoutChunks stderrChunks : List (List Nat)) (kw : TeeKwargs) :
    TeeResult :=
  let o := teeWriteChunks stdoutChunks
  let e := teeWriteChunks stderrChunks
  let otext := (o.1.map utf8DecodeIgnore).join
  let etext := (e.1.map utf8DecodeIgnore).join
  { outStream := mkStream kw.quiet_stdout kw.stdout_str kw.stdout_path otext,
    errStream := mkStream kw.quiet_stderr kw.stderr_str kw.stderr_path etext,
    stdout_str := if kw.stdout_str then some otext else none,
    stderr_str := if kw.stderr_str then some etext else none,
    fatal := o.2 || e.2 }

/-- Claim C4: for input streams whose final read chunk ends with the
sentinel byte, `Shell.tee` copies every chunk read from each input to
each of that stream's present sinks -- console passthrough (present
unless quieted), in-memory accumulator (present when requested), and
the always-opened file -- decoded leniently chunk by chunk and with
the terminating sentinel byte excluded; the returned value carries
both workers' results (the join on both threads), the accumulated
strings are returned exactly when requested, no fatal closure is
signalled, and every sink the call opened (the file, and the in-memory
accumulator after its value is taken) is closed, while the process's
own console streams are not. -/
theorem tee_copies_all_sinks (opre epre : List (List Nat))
    (oc ec : List Nat) (kw : TeeKwargs)
    (ho1 : ∀ x ∈ opre, x ≠ [] ∧ x.getLast? ≠ some END_OF_READ)
    (ho2 : oc.getLast? = some END_OF_READ)
    (he1 : ∀ x ∈ epre, x ≠ [] ∧ x.getLast? ≠ some END_OF_READ)
    (he2 : ec.getLast? = some END_OF_READ) :
    (tee (opre ++ [oc]) (epre ++ [ec]) kw).fatal = false ∧
    tee (opre ++ [oc]) (epre ++ [ec]) kw =
      { outStream :=
          { console := if kw.quiet_stdout then none else
              some ⟨SinkKind.sysConsole,
                ((opre ++ [oc.dropLast]).map utf8DecodeIgnore).join, false⟩,
            memory := if kw.stdout_str then
              some ⟨SinkKind.memoryIO,
                ((opre ++ [oc.dropLast]).map utf8DecodeIgnore).join, true⟩
              else none,
            fileCell := ⟨SinkKind.fileIO,
              ((opre ++ [oc.dropLast]).map utf8DecodeIgnore).join, true⟩,
            filePath := kw.stdout_path.getD "/dev/null" },
        errStream :=
          { console := if kw.quiet_stderr then none else
              some ⟨SinkKind.sysConsole,
                ((epre ++ [ec.dropLast]).map utf8DecodeIgnore).join, false⟩,
            memory := if kw.stderr_str then
              some ⟨SinkKind.memoryIO,
                ((epre ++ [ec.dropLast]).map utf8DecodeIgnore).join, true⟩
              else none,
            fileCell := ⟨SinkKind.fileIO,
              ((epre ++ [ec.dropLast]).map utf8DecodeIgnore).join, true⟩,
            filePath := kw.stderr_path.getD "/dev/null" },
        stdout_str := if kw.stdout_str then
          some (((opre ++ [oc.dropLast]).map utf8DecodeIgnore).join)
          else none,
        stderr_str := if kw.stderr_str then
          some (((epre ++ [ec.dropLast]).map utf8DecodeIgnore).join)
          else none,
        fatal := false } := by
  have ho := teeWriteChunks_append opre oc [] ho1 ho2
  have he := teeWriteChunks_append epre ec [] he1 he2
  constructor
  · simp [tee, ho, he]
  · simp only [tee, ho, he, mkStream]
    refine congrArg₂ (fun a b => TeeResult.mk a b _ _ _) ?_ ?_ <;>
      cases kw.quiet_stdout <;> cases kw.stdout_str <;>
      cases kw.quiet_stderr <;> cases kw.stderr_str <;>
      simp [closeCell]

/-- Witness for the C4 theorem at concrete streams: stdout delivers
`hi` then `!` + sentinel, stderr delivers `e` + sentinel, with memory
accumulation requested for both streams and a file path given for
stdout. -/
theorem tee_copies_all_sinks_witness :
    (tee ([[104, 105]] ++ [[33, 4]]) ([] ++ [[101, 4]])
        ⟨false, false, true, true, some "/tmp/o.log", none⟩).fatal = false ∧
    tee ([[104, 105]] ++ [[33, 4]]) ([] ++ [[101, 4]])
        ⟨false, false, true, true, some "/tmp/o.log", none⟩ =
      { outStream :=
          { console := some ⟨SinkKind.sysConsole,
              (([[104, 105]] ++ [List.dropLast [33, 4]]).map
                utf8DecodeIgnore).join, false⟩,
            memory := some ⟨SinkKind.memoryIO,
              (([[104, 105]] ++ [List.dropLast [33, 4]]).map
                utf8DecodeIgnore).join, true⟩,
            fileCell := ⟨SinkKind.fileIO,
              (([[104, 105]] ++ [List.dropLast [33, 4]]).map
                utf8DecodeIgnore).join, true⟩,
            filePath := "/tmp/o.log" },
        errStream :=
          { console := some ⟨SinkKind.sysConsole,
              (([] ++ [List.dropLast [101, 4]]).map utf8DecodeIgnore).join,
              false⟩,
            memory := some ⟨SinkKind.memoryIO,
              (([] ++ [List.dropLast [101, 4]]).map utf8DecodeIgnore).join,
              true⟩,
            fileCell := ⟨SinkKind.fileIO,
              (([] ++ [List.dropLast [101, 4]]).map utf8DecodeIgnore).join,
              true⟩,
            filePath := "/dev/null" },
        stdout_str := some ((([[104, 105]] ++ [List.dropLast [33, 4]]).map
          utf8DecodeIgnore).join),
        stderr_str := some ((([] ++ [List.dropLast [101, 4]]).map
          utf8DecodeIgnore).join),
        fatal := false } :=
  tee_copies_all_sinks [[104, 105]] [] [33, 4] [101, 4]
    ⟨false, false, true, true, some "/tmp/o.log", none⟩
    (by decide) (by decide) (by decide) (by decide)

/-- Numeric value of an ASCII digit character. -/
def charDigit (c : Char) : Nat := c.toNat - 48

/-- Tail of Python's `int(str)` digit grammar: digits with single
underscores allowed between digits only. -/
def parseDigitsTail (acc : Nat) : List Char → Option Nat
  | [] => some acc
  | '_' :: c :: rest =>
    if c.isDigit then parseDigitsTail (acc * 10 + charDigit c) rest
    else none
  | ['_'] => none
  | c :: rest =>
    if c.isDigit then parseDigitsTail (acc * 10 + charDigit c) rest
    else none

/-- A nonempty digit sequence per Python's `int(str)` grammar. -/
def parseDigits : List Char → Option Nat
  | [] => none
  | c :: rest =>
    if c.isDigit then parseDigitsTail (charDigit c) rest else none

/-- Python's `int(str)` conversion as used on the auxiliary `echo
$RET_CODE` output (`shell.py` line 221): strip surrounding whitespace,
an optional sign, then base-10 digits; `none` models the `ValueError`
path.  (Python also strips a few rarer whitespace characters and
accepts non-ASCII decimal digits; the shell's `echo` output never
contains those.) -/
def pythonIntOfString (s : String) : Option Int :=
  match s.trim.data with
  | '+' :: rest => (parseDigits rest).map (fun n => (n : Int))
  | '-' :: rest => (parseDigits rest).map (fun n => -(n : Int))
  | l => (parseDigits l).map (fun n => (n : Int))

/-- The `returncode` field of `Shell.run`'s result: an integer, or the
explicit `"N/A"` sentinel when `int(aux_out)` raises `ValueError`
(`shell.py` lines 220-223). -/
inductive ReturnCode
  | int (n : Int)
  | na
deriving DecidableEq

/-- `returncode` computed from the text the auxiliary `echo $RET_CODE`
query produced. -/
def returnCodeOfAux (auxOut : String) : ReturnCode :=
  match pythonIntOfString auxOut with
  | some n => ReturnCode.int n
  | none => ReturnCode.na

/-- The error `Shell.run` surfaces when `tee` signals a fatal stream
closure: the `RuntimeError` message, and the fact that the shell's
stdin write descriptor was closed before the error was raised
(`shell.py` lines 206-213). -/
structure RunError where
  message : String
  stdinClosed : Bool
deriving DecidableEq

/-- Prefix of the fatal `RuntimeError` message in `Shell.run`. -/
def fatalMsgPre : String := "There was a problem running the command `"

/-- Suffix of the fatal `RuntimeError` message in `Shell.run`. -/
def fatalMsgPost : String :=
  "`.  This is a fatal error and we cannot continue.  " ++
  "Ensure that the syntax of the command is correct."

/-- The result record `Shell.run` assembles on success (`shell.py`
lines 224-232); the timing fields are omitted from the embedding, no
claim concerns them. -/
structure RunResult where
  returncode : ReturnCode
  args : String
  stdout : Option String
  stderr : Option String
deriving DecidableEq

/-- A `Shell.run` call in the embedding: the stdin writes it performs,
and either the fatal error or the assembled result. -/
structure RunTrace where
  stdinWrites : List String
  outcome : Except RunError RunResult

/-- `Shell.run` (`shell.py` lines 157-232): write the framed command,
tee the two output streams, and either fail fatally -- closing the
stdin write descriptor and raising a `RuntimeError` naming the
command -- when a worker signalled a closed stream, or assemble the
result, with the return code parsed from the auxiliary `echo
$RET_CODE` output (`auxRetOut` stands for the text that query
produced). -/
def runModel (command : String) (devnull_stdin : Bool) (kw : TeeKwargs)
    (stdoutChunks stderrChunks : List (List Nat)) (auxRetOut : String) :
    RunTrace :=
  let t := tee stdoutChunks stderrChunks kw
  if t.fatal then
    { stdinWrites := runStdinWrites command devnull_stdin,
      outcome := Except.error
        { message := fatalMsgPre ++ command ++ fatalMsgPost,
          stdinClosed := true } }
  else
    { stdinWrites := runStdinWrites command devnull_stdin,
      outcome := Except.ok
        { returncode := returnCodeOfAux auxRetOut,
          args := command,
          stdout := (t.stdout_str).map (fun l => String.mk l),
          stderr := (t.stderr_str).map (fun l => String.mk l) } }

/-- Claim C2: if either output stream closes (a read returns no bytes)
before a sentinel byte has been observed, `Shell.run` raises a fatal,
non-retriable error -- modelled as the `Except.error` outcome, which no
caller retries -- whose message embeds the offending command between
the fixed message prefix and suffix, and the shell's stdin write
descriptor is closed before the error is surfaced. -/
theorem run_fatal_on_early_close (command : String) (devnull_stdin : Bool)
    (kw : TeeKwargs) (so se : List (List Nat)) (auxRetOut : String)
    (h : closesBeforeAnySentinelByte so = true ∨
         closesBeforeAnySentinelByte se = true) :
    (runModel command devnull_stdin kw so se auxRetOut).outcome =
      Except.error
        { message := fatalMsgPre ++ command ++ fatalMsgPost,
          stdinClosed := true } := by
  have hf : (tee so se kw).fatal = true := by
    cases h with
    | inl h1 => simp [tee, teeWriteChunks_fatal_of_closes h1]
    | inr h2 => simp [tee, teeWriteChunks_fatal_of_closes h2]
  simp [runModel, hf]

/-- Witness for the C2 theorem: the stdout stream produces the bytes
`hi` and then closes without ever writing a sentinel (as happens when
the spawned shell dies on a syntax error such as an unbalanced
parenthesis). -/
theorem run_fatal_on_early_close_witness :
    (runModel "echo hi )" false
        ⟨false, false, true, true, none, none⟩
        [[104, 105]] [[4]] "").outcome =
      Except.error
        { message := fatalMsgPre ++ "echo hi )" ++ fatalMsgPost,
          stdinClosed := true } :=
  run_fatal_on_early_close "echo hi )" false
    ⟨false, false, true, true, none, none⟩
    [[104, 105]] [[4]] "" (Or.inl (by decide))

/-- Claim C6: when the auxiliary `echo $RET_CODE` query after a
non-fatal command yields text that cannot be parsed as an integer,
`Shell.run` returns normally with the explicit `"N/A"` sentinel as the
`returncode` field rather than raising; when the text does parse, the
`returncode` field is that integer. -/
theorem run_returncode_parse (command : String) (devnull_stdin : Bool)
    (kw : TeeKwargs) (so se : List (List Nat)) (auxRetOut : String)
    (hfatal : (tee so se kw).fatal = false) :
    ∃ r : RunResult,
      (runModel command devnull_stdin kw so se auxRetOut).outcome =
        Except.ok r ∧
      (pythonIntOfString auxRetOut = none → r.returncode = ReturnCode.na) ∧
      (∀ n : Int, pythonIntOfString auxRetOut = some n →
        r.returncode = ReturnCode.int n) := by
  refine ⟨{ returncode := returnCodeOfAux auxRetOut, args := command,
            stdout := ((tee so se kw).stdout_str).map (fun l => String.mk l),
            stderr := ((tee so se kw).stderr_str).map (fun l => String.mk l) },
          ?_, ?_, ?_⟩
  · simp [runModel, hfatal]
  · intro hp
    simp [returnCodeOfAux, hp]
  · intro n hp
    simp [returnCodeOfAux, hp]

/-- Witness for the C6 theorem: with both streams terminating cleanly,
an unparsable `echo $RET_CODE` output yields the `"N/A"` sentinel
(checked here through the conjunct the theorem provides, applied at
the concrete auxiliary text `N/A\n`). -/
theorem run_returncode_parse_witness :
    ∃ r : RunResult,
      (runModel "false" false ⟨false, false, true, true, none, none⟩
          [[4]] [[4]] "N/A\n").outcome = Except.ok r ∧
      (pythonIntOfString "N/A\n" = none → r.returncode = ReturnCode.na) ∧
      (∀ n : Int, pythonIntOfString "N/A\n" = some n →
        r.returncode = ReturnCode.int n) :=
  run_returncode_parse "false" false ⟨false, false, true, true, none, none⟩
    [[4]] [[4]] "N/A\n" (by decide)

/-- The `stat_name`s of the classes the `@StatsCollector.subclass`
decorator registers in `StatsCollector.subclasses`, in registration
order (`stats_collector.py`: `DiskStatsCollector`, `CPUStatsCollector`,
`MemoryStatsCollector`, both in the `psutil` branch and in the
fallback branch). -/
def registeredStatNames : List String := ["disk", "cpu", "memory"]

/-- `stats_collectors` (`stats_collector.py` lines 27-50), with the
constructed collectors represented by their `stat_name`s: when a
`measure` keyword is present, the registered collectors whose
`stat_name` is contained in it are instantiated, in registration
order; otherwise the empty list is returned.  The function has no
error path. -/
def stats_collectors (measure : Option (List String)) : List String :=
  match measure with
  | some ms => registeredStatNames.filter (fun c => decide (c ∈ ms))
  | none => []

/-- Claim C5 (counterexample): requesting the unknown sampler name
`gpu` raises nothing -- `stats_collectors` returns normally, producing
exactly the list that omits the unknown name (empty for
`measure=["gpu"]`, and just `cpu` for `measure=["cpu", "gpu"]`). -/
theorem stats_collectors_ignores_unknown :
    stats_collectors (some ["gpu"]) = [] ∧
    stats_collectors (some ["cpu", "gpu"]) = ["cpu"] := by
  constructor <;> decide

/-- Claim C5 (amended): an unknown sampler name in `measure` is
silently ignored rather than raising a configuration error:
`stats_collectors` returns the registered collectors whose names
appear in `measure`, and removing a name outside the registered set
`disk`/`cpu`/`memory` from `measure` leaves the result unchanged. -/
theorem stats_collectors_unknown_no_effect (ms : List String)
    (name : String) (h : name ∉ registeredStatNames) :
    stats_collectors (some ms) = stats_collectors (some (ms.erase name)) := by
  simp only [stats_collectors]
  refine List.filter_congr ?_
  intro c hc
  have hne : c ≠ name := fun e => h (e ▸ hc)
  simp [List.mem_erase_of_ne hne]

/-- Witness for the amended C5 theorem: erasing the unknown name `gpu`
from `measure = ["gpu", "cpu"]` does not change the collectors built. -/
theorem stats_collectors_unknown_no_effect_witness :
    stats_collectors (some ["gpu", "cpu"]) =
      stats_collectors (some (["gpu", "cpu"].erase "gpu")) :=
  stats_collectors_unknown_no_effect ["gpu", "cpu"] "gpu" (by decide)

/-- The concrete Python type of a `Shell` object in a two-level
hierarchy: the `Shell` class itself, or a proper subclass of it that
inherits `__eq__`. -/
inductive ShellType
  | base
  | derived
deriving DecidableEq

/-- Python's `isinstance(x, T)`: `isinstanceOf tx tT` holds when an
object of concrete type `tx` is an instance of type `tT` (every type
is an instance of `base`; only `derived` is an instance of
`derived`). -/
def isinstanceOf : ShellType → ShellType → Bool
  | _, ShellType.base => true
  | ShellType.derived, ShellType.derived => true
  | ShellType.base, ShellType.derived => false

/-- A `Shell` object as far as `__eq__` observes it: its concrete type
and the string its `pwd()` returns. -/
structure ShellObj where
  ty : ShellType
  pwdVal : String
deriving DecidableEq

/-- `Shell.__eq__` (`shell.py` lines 124-135): `isinstance(self,
type(other)) and self.pwd() == other.pwd()`.  (In a `a == b`
expression Python evaluates `a.__eq__(b)` here, since the subclass
inherits `__eq__` rather than overriding it.) -/
def shellEq (a b : ShellObj) : Bool :=
  isinstanceOf a.ty b.ty && (a.pwdVal == b.pwdVal)

/-- Claim C7 (code bug): at the failing input -- a `Shell` instance and
an instance of a proper subclass of `Shell`, both reporting
`pwd() = "/tmp"` -- the implemented equality returns `True` for
`sub == base` even though the concrete types differ, and `False` for
`base == sub`: it is not the claimed (and documented) symmetric
same-concrete-type equality, because `isinstance(self, type(other))`
accepts a subclass instance on the left. -/
theorem shell_eq_asymmetric_at_subclass :
    shellEq ⟨ShellType.derived, "/tmp"⟩ ⟨ShellType.base, "/tmp"⟩ = true ∧
    shellEq ⟨ShellType.base, "/tmp"⟩ ⟨ShellType.derived, "/tmp"⟩ = false ∧
    ShellType.derived ≠ ShellType.base := by
  refine ⟨by decide, by decide, by decide⟩

/-- The two working directories a `ShellLogger` run touches: the
controlling process's current directory (`os.getcwd`/`os.chdir`) and
the spawned shell's own working directory. -/
structure DirState where
  procCwd : String
  shellCwd : String
deriving DecidableEq

/-- `Shell.cd` (`shell.py` lines 147-155): `os.chdir(path)` in the
controlling process, plus `cd <path>` issued inside the spawned shell
over the auxiliary channel -- both directories become `path`. -/
def shellCd (path : String) (_st : DirState) : DirState :=
  { procCwd := path, shellCwd := path }

/-- The directory effects of `ShellLogger._run` (`shell_logger.py`
lines 628-677): remember `os.getcwd()`, `cd` into the requested `pwd`
kwarg when it is present and truthy, run the command -- which may move
the spawned shell's own working directory arbitrarily, modelled by
`cmdShellEffect` -- and finally `cd` back to the remembered directory
under the same condition.  (The auxiliary-information queries and the
stats/trace collectors touch no directory.) -/
def shellLoggerRun (pwdArg : Option String)
    (cmdShellEffect : String → String) (st : DirState) : DirState :=
  let old_pwd := st.procCwd
  let st1 := match pwdArg with
    | some p => if p = "" then st else shellCd p st
    | none => st
  let st2 := { st1 with shellCwd := cmdShellEffect st1.shellCwd }
  match pwdArg with
  | some p => if p = "" then st2 else shellCd old_pwd st2
  | none => st2

/-- Claim C8: a `ShellLogger._run` call that specifies a (truthy)
target working directory and completes normally restores the prior
directory: afterwards the controlling process's current directory, and
the spawned shell's working directory, both equal the directory in
effect immediately before the call (the two agree beforehand, since
`Shell.cd` always moves them together), whatever directory changes the
command itself performed inside the shell. -/
theorem logger_run_restores_pwd (p : String) (f : String → String)
    (st : DirState) (hp : p ≠ "") (hsync : st.shellCwd = st.procCwd) :
    (shellLoggerRun (some p) f st).procCwd = st.procCwd ∧
    (shellLoggerRun (some p) f st).shellCwd = st.shellCwd := by
  simp [shellLoggerRun, shellCd, hp, hsync]

/-- Witness for the C8 theorem: running with `pwd=/tmp` from `/home`,
with a command that leaves the shell in `/var`, still restores both
directories to `/home`. -/
theorem logger_run_restores_pwd_witness :
    (shellLoggerRun (some "/tmp") (fun _ => "/var")
        ⟨"/home", "/home"⟩).procCwd = "/home" ∧
    (shellLoggerRun (some "/tmp") (fun _ => "/var")
        ⟨"/home", "/home"⟩).shellCwd = "/home" :=
  logger_run_restores_pwd "/tmp" (fun _ => "/var") ⟨"/home", "/home"⟩
    (by decide) rfl

/-- A Python `datetime.timedelta` in its normalized representation:
`0 <= seconds < 86400` and `0 <= microseconds < 1000000`, with any
overflow carried into `days` (stated as hypotheses where needed). -/
structure Timedelta where
  days : Int
  seconds : Nat
  microseconds : Nat
deriving DecidableEq

/-- `round(rem / 10**6, 2)` over the exact rational value, expressed
in centiseconds with ties rounded to even.  (Python rounds the nearest
binary double; for the values `divmod` produces here the results agree
except on ties perturbed by binary representation, and no claim
depends on the seconds digits.) -/
def roundHalfEvenCenti (rem : Nat) : Nat :=
  let q := rem / 10000
  let r := rem % 10000
  if r < 5000 then q
  else if 5000 < r then q + 1
  else if q % 2 = 0 then q else q + 1

/-- The dictionary `ShellLogger.strfdelta` builds (`shell_logger.py`
lines 344-378): `days` is taken directly from the delta, while `hrs`,
`min`, and `sec` are carved out of `delta.microseconds +
delta.seconds * 10**6` by `divmod` (the source calls this quantity
`total_ms` although it holds microseconds). -/
structure DeltaFields where
  days : Int
  hrs : Nat
  mins : Nat
  secCenti : Nat
deriving DecidableEq

/-- Compute the `strfdelta` fields from a time delta. -/
def strfdeltaFields (delta : Timedelta) : DeltaFields :=
  let total_ms := delta.microseconds + delta.seconds * 1000000
  let hrs := total_ms / 3600000000
  let rem1 := total_ms % 3600000000
  let mins := rem1 / 60000000
  let rem2 := rem1 % 60000000
  { days := delta.days, hrs := hrs, mins := mins,
    secCenti := roundHalfEvenCenti rem2 }

/-- A piece of a `strfdelta` format string: a literal, or one of the
`\x7bdays\x7d`/`\x7bhrs\x7d`/`\x7bmin\x7d`/`\x7bsec\x7d` fields that
`fmt.format(**d)` substitutes. -/
inductive FmtItem
  | lit (s : String)
  | days
  | hrs
  | mins
  | sec
deriving DecidableEq

/-- The decimal rendering of the rounded seconds value, as `repr` of
the Python float prints it (no trailing zero beyond the first
fractional digit). -/
def secString (c : Nat) : String :=
  let ip := c / 100
  let fp := c % 100
  if fp = 0 then toString ip ++ ".0"
  else if fp % 10 = 0 then toString ip ++ "." ++ toString (fp / 10)
  else if fp < 10 then toString ip ++ ".0" ++ toString fp
  else toString ip ++ "." ++ toString fp

/-- Substitute one format item from the computed fields. -/
def renderFmtItem (d : DeltaFields) : FmtItem → String
  | FmtItem.lit s => s
  | FmtItem.days => toString d.days
  | FmtItem.hrs => toString d.hrs
  | FmtItem.mins => toString d.mins
  | FmtItem.sec => secString d.secCenti

/-- `ShellLogger.strfdelta(delta, fmt)`: format the computed fields
with the given format string. -/
def strfdelta (delta : Timedelta) (fmt : List FmtItem) : String :=
  String.join (fmt.map (renderFmtItem (strfdeltaFields delta)))

/-- The format string `"\x7bhrs\x7dh \x7bmin\x7dm \x7bsec\x7ds"` of
the claim, which references no `\x7bdays\x7d` field. -/
def hmsFmt : List FmtItem :=
  [FmtItem.hrs, FmtItem.lit "h ", FmtItem.mins, FmtItem.lit "m ",
   FmtItem.sec, FmtItem.lit "s"]

/-- Claim C9: for every normalized time delta, `strfdelta` computes
the `hrs`, `min`, and `sec` fields from `delta.seconds` and
`delta.microseconds` only, so the `hrs` field is strictly below 24 and
the string formatted with `"\x7bhrs\x7dh \x7bmin\x7dm \x7bsec\x7ds"`
is unchanged under any change of the delta's whole days. -/
theorem strfdelta_hrs_lt_24_days_dropped (d1 d2 : Int) (s us : Nat)
    (hs : s < 86400) (hus : us < 1000000) :
    (strfdeltaFields ⟨d1, s, us⟩).hrs < 24 ∧
    strfdelta ⟨d1, s, us⟩ hmsFmt = strfdelta ⟨d2, s, us⟩ hmsFmt := by
  constructor
  · have hhrs : (strfdeltaFields ⟨d1, s, us⟩).hrs
        = (us + s * 1000000) / 3600000000 := rfl
    rw [hhrs]
    have hlt : us + s * 1000000 < 24 * 3600000000 := by omega
    exact Nat.div_lt_of_lt_mul (by omega)
  · simp [strfdelta, strfdeltaFields, renderFmtItem, hmsFmt]

/-- Witness for the C9 theorem: at `3 days, 2h 1m 5.25s` the hours
field is below 24 and the formatted string equals the one for the same
time of day with zero days. -/
theorem strfdelta_hrs_lt_24_days_dropped_witness :
    (strfdeltaFields ⟨3, 7265, 250000⟩).hrs < 24 ∧
    strfdelta ⟨3, 7265, 250000⟩ hmsFmt = strfdelta ⟨0, 7265, 250000⟩ hmsFmt :=
  strfdelta_hrs_lt_24_days_dropped 3 0 7265 250000 (by decide) (by decide)

/-- The synchronous drain loop of `Shell.auxiliary_command`
(`shell.py` lines 353-368) on one auxiliary pipe: read chunks,
decoding each strictly and accumulating, until a chunk's last byte is
the sentinel, which is removed before the final decode.  Returns the
accumulated text and the number of reads performed; `none` models the
failure modes of the Python loop (an empty read makes `aux[-1]` raise
`IndexError`, an exhausted pipe blocks forever, and a malformed byte
sequence makes the strict `decode` raise). -/
def drainAux : List (List Nat) → Option (String × Nat)
  | [] => none
  | c :: cs =>
    match c.getLast? with
    | none => none
    | some b =>
      if b = END_OF_READ then
        (utf8DecodeStrict c.dropLast).map (fun t => (String.mk t, 1))
      else
        match utf8DecodeStrict c, drainAux cs with
        | some t, some (t2, n) => some (String.mk t ++ t2, n + 1)
        | _, _ => none

/-- The observable behaviour of one `Shell.auxiliary_command` call
(`shell.py` lines 320-374): the strings written to the shell's stdin,
the number of reads from each auxiliary pipe, and the returned
`(stdout, stderr)` pair. -/
structure AuxResult where
  writes : List String
  outReads : Nat
  errReads : Nat
  stdout : Option String
  stderr : Option String
deriving DecidableEq

/-- `Shell.auxiliary_command`: if no keyword argument's key equals
`os.name` (`osName` here), nothing is written or read and
`(None, None)` is returned; otherwise the command stored under that
key is written with its streams redirected to the auxiliary write
descriptors (`outFd`, `errFd`), a sentinel print is issued for each,
both pipes are drained, and each accumulated text is stripped when the
`strip` keyword is truthy and the text is nonempty.  The `kwargs`
mapping carries the command-valued keywords; the `strip` flag is
modelled separately since its value is a boolean. -/
def auxiliary_command (osName : String) (kwargs : List (String × String))
    (stripFlag : Bool) (outFd errFd : Nat)
    (outChunks errChunks : List (List Nat)) : Option AuxResult :=
  match kwargs.lookup osName with
  | none =>
    some { writes := [], outReads := 0, errReads := 0,
           stdout := none, stderr := none }
  | some cmd =>
    match drainAux outChunks, drainAux errChunks with
    | some (so, n1), some (se, n2) =>
      some { writes :=
               [cmd ++ " 1>&" ++ toString outFd ++ " 2>&" ++ toString errFd
                  ++ "\n",
                "printf \x27\\4\x27 1>&" ++ toString outFd ++ "\n",
                "printf \x27\\4\x27 1>&" ++ toString errFd ++ "\n"],
             outReads := n1, errReads := n2,
             stdout := some (if stripFlag ∧ so ≠ "" then so.trim else so),
             stderr := some (if stripFlag ∧ se ≠ "" then se.trim else se) }
    | _, _ => none

/-- Claim C10: a `Shell.auxiliary_command` call whose keyword
arguments contain no key equal to the current `os.name` writes nothing
to the shell's stdin, performs no read on either auxiliary pipe, and
returns the pair `(None, None)` -- independently of whatever bytes sit
in the auxiliary pipes. -/
theorem auxiliary_command_no_oskey_noop (osName : String)
    (kwargs : List (String × String)) (stripFlag : Bool)
    (outFd errFd : Nat) (outChunks errChunks : List (List Nat))
    (h : kwargs.lookup osName = none) :
    auxiliary_command osName kwargs stripFlag outFd errFd
        outChunks errChunks =
      some { writes := [], outReads := 0, errReads := 0,
             stdout := none, stderr := none } := by
  simp [auxiliary_command, h]

/-- Witness for the C10 theorem: on a POSIX system (`os.name =
"posix"`) a call passing only an `nt` command keyword (plus the
`strip` flag) writes nothing, reads nothing, and returns
`(None, None)`, even with data sitting in the auxiliary pipes. -/
theorem auxiliary_command_no_oskey_noop_witness :
    auxiliary_command "posix" [("nt", "cd C:")] true 11 13
        [[112, 4]] [[4]] =
      some { writes := [], outReads := 0, errReads := 0,
             stdout := none, stderr := none } :=
  auxiliary_command_no_oskey_noop "posix" [("nt", "cd C:")] true 11 13
    [[112, 4]] [[4]] (by decide)
